import Mathlib

/-!
Verification of rwaybar's layout/paint engine and bar presentation state
machine, shallowly embedded from `src/item.rs`, `src/bar.rs` and
`src/state.rs`.  `f32` values are modelled as rationals; machine pointer
identities (callback ids, popup descriptors, iteration items) are modelled
as naturals.
-/

namespace Rwaybar

/-- Modelled from the spec: `min-width`/`max-width` are "either a bare pixel
float or a `N%`-style fraction of parent width" (the declaring file
`render.rs` is not part of the sources; the two variants `Pixels` and
`Fraction` are exactly the ones consumed by `Item::render` in `item.rs`). -/
inductive Width where
  | Pixels (n : ℚ)
  | Fraction (f : ℚ)
deriving DecidableEq, Repr

/-- A color with four channels in `[0,1]`, as stored by
`tiny_skia::Color` (an external collaborator of the core). -/
structure Color where
  r : ℚ
  g : ℚ
  b : ℚ
  a : ℚ
deriving DecidableEq, Repr

/-- Source `tiny_skia::Color::from_rgba`: accepts each channel iff it lies in
`[0,1]` (documented contract of the external library). -/
def Color.from_rgba (r g b a : ℚ) : Option Color :=
  if 0 ≤ r ∧ r ≤ 1 ∧ 0 ≤ g ∧ g ≤ 1 ∧ 0 ≤ b ∧ b ≤ 1 ∧ 0 ≤ a ∧ a ≤ 1 then
    some ⟨r, g, b, a⟩
  else
    none

/-- The resolved per-item style overlay; `Formatting` in `item.rs`
(lines 135-144).  `Default` in the source sets every field to `None`. -/
structure Formatting where
  bg_rgba : Option Color := none
  border : Option (ℚ × ℚ × ℚ × ℚ) := none
  border_rgba : Option Color := none
  min_width : Option Width := none
  max_width : Option Width := none
  margin : Option (ℚ × ℚ × ℚ × ℚ) := none
  padding : Option (ℚ × ℚ × ℚ × ℚ) := none
deriving DecidableEq, Repr

/-- Source `Formatting::default()`. -/
def Formatting.deflt : Formatting := {}

/-- One hexadecimal digit, as accepted by Rust `u64::from_str_radix(_, 16)`. -/
def hexDigitVal (c : Char) : Option ℕ :=
  if 48 ≤ c.toNat ∧ c.toNat ≤ 57 then some (c.toNat - 48)
  else if 97 ≤ c.toNat ∧ c.toNat ≤ 102 then some (c.toNat - 87)
  else if 65 ≤ c.toNat ∧ c.toNat ≤ 70 then some (c.toNat - 55)
  else none

/-- Accumulate hexadecimal digits left to right; fails on any non-digit. -/
def hexDigitsAux (acc : ℕ) : List Char → Option ℕ
  | [] => some acc
  | c :: cs =>
    match hexDigitVal c with
    | some d => hexDigitsAux (acc * 16 + d) cs
    | none => none

/-- Rust `u64::from_str_radix(s, 16)`: an optional leading `+`, then a
nonempty run of hex digits; rejects the empty string, any other character,
and values that overflow a `u64`. -/
def from_str_radix16 (s : List Char) : Option ℕ :=
  let digits := match s with
    | '+' :: rest => rest
    | _ => s
  match digits with
  | [] => none
  | _ => (hexDigitsAux 0 digits).filter (fun v => v < 2 ^ 64)

/-- The alpha channel computed by `Formatting::parse_rgba` before any hex
string is examined: `alpha.unwrap_or(1.0) * 65535.0` clamped to
`[0, 65535]` and truncated to an integer (`as u64`). -/
def alpha_channel (alpha : Option ℚ) : ℕ :=
  let alpha_f := alpha.getD 1 * 65535
  (⌊max 0 (min 65535 alpha_f)⌋).toNat

/-- The named-color table of `Formatting::parse_rgba` (the final `match`
in `item.rs` lines 260-272); unknown names fall through to black. -/
def named_color (c : String) : ℕ × ℕ × ℕ :=
  match c with
  | "black" => (0, 0, 0)
  | "red" => (0xFFFF, 0, 0)
  | "yellow" => (0xFFFF, 0xFFFF, 0)
  | "green" => (0, 0xFFFF, 0)
  | "blue" => (0, 0, 0xFFFF)
  | "gray" => (0x7FFF, 0x7FFF, 0x7FFF)
  | "white" => (0xFFFF, 0xFFFF, 0xFFFF)
  | _ => (0, 0, 0)

/-- The hex arm of `Formatting::parse_rgba`: dispatch on the parse result
and the total string length (including `#`), `item.rs` lines 219-258.
`a0` is the alpha channel already computed from the `*-alpha` key. -/
def hex_channels (v : Option ℕ) (len : ℕ) (a0 : ℕ) : ℕ × ℕ × ℕ × ℕ :=
  match v with
  | some v =>
    if len = 4 then
      (((v >>> 8) &&& 0xF) * 0x1111, ((v >>> 4) &&& 0xF) * 0x1111,
        (v &&& 0xF) * 0x1111, a0)
    else if len = 5 then
      (((v >>> 12) &&& 0xF) * 0x1111, ((v >>> 8) &&& 0xF) * 0x1111,
        ((v >>> 4) &&& 0xF) * 0x1111, (v &&& 0xF) * 0x1111)
    else if len = 7 then
      (((v >>> 16) &&& 0xFF) * 0x101, ((v >>> 8) &&& 0xFF) * 0x101,
        (v &&& 0xFF) * 0x101, a0)
    else if len = 9 then
      (((v >>> 24) &&& 0xFF) * 0x101, ((v >>> 16) &&& 0xFF) * 0x101,
        ((v >>> 8) &&& 0xFF) * 0x101, (v &&& 0xFF) * 0x101)
    else if len = 13 then
      ((v >>> 32) &&& 0xFFFF, (v >>> 16) &&& 0xFFFF, v &&& 0xFFFF, a0)
    else if len = 17 then
      ((v >>> 48) &&& 0xFFFF, (v >>> 32) &&& 0xFFFF, (v >>> 16) &&& 0xFFFF,
        v &&& 0xFFFF)
    else (0, 0, 0, a0)
  | none => (0, 0, 0, a0)

/-- Rust `str::starts_with('#')`, on the character list. -/
def starts_with_hash (s : String) : Bool :=
  match s.toList with
  | '#' :: _ => true
  | _ => false

/-- Source `Formatting::parse_rgba` (`item.rs` lines 210-280): returns `None` when
both inputs are absent; otherwise resolves the color string (default
`"black"`), parses `#`-prefixed hex by length, falls back to the named
color table, and divides every 16-bit channel by 65535 for
`Color::from_rgba`.  String indexing and length are modelled on the
character list (the strings the hex arms accept are all ASCII, where
Rust's byte length and the character count agree). -/
def parse_rgba (color : Option String) (alpha : Option ℚ) : Option Color :=
  if color = none ∧ alpha = none then none
  else
    let c := match color with
      | some v => v
      | none => "black"
    let a0 := alpha_channel alpha
    let rgba :=
      if starts_with_hash c then
        hex_channels (from_str_radix16 (c.toList.drop 1)) c.toList.length a0
      else
        let (r, g, b) := named_color c
        (r, g, b, a0)
    Color.from_rgba ((rgba.1 : ℚ) / 65535) ((rgba.2.1 : ℚ) / 65535)
      ((rgba.2.2.1 : ℚ) / 65535) ((rgba.2.2.2 : ℚ) / 65535)

/-- Source `Formatting::get_shrink` (`item.rs` lines 282-296): returns `None` when
both `padding` and `margin` are unset; otherwise sums the set members of
`[padding, margin, border]` componentwise (top, right, bottom, left). -/
def Formatting.get_shrink (f : Formatting) : Option (ℚ × ℚ × ℚ × ℚ) :=
  if f.padding = none ∧ f.margin = none then none
  else
    let add := fun (rv : ℚ × ℚ × ℚ × ℚ) (i : Option (ℚ × ℚ × ℚ × ℚ)) =>
      match i with
      | some (t, r, b, l) => (rv.1 + t, rv.2.1 + r, rv.2.2.1 + b, rv.2.2.2 + l)
      | none => rv
    some (add (add (add (0, 0, 0, 0) f.padding) f.margin) f.border)

/-- Source `Formatting::is_boring` (`item.rs` lines 298-300): structural equality
with the default value. -/
def Formatting.is_boring (f : Formatting) : Prop := f = Formatting.deflt

instance : DecidablePred Formatting.is_boring := fun f =>
  inferInstanceAs (Decidable (f = Formatting.deflt))

end Rwaybar

namespace Rwaybar

/-- Source `Runtime::set_wake_at` (`state.rs` lines 286-294): keep the stored
deadline when it is strictly earlier than the request, otherwise store the
request. -/
def set_wake_at (cur : Option ℚ) (wake : ℚ) : Option ℚ :=
  match cur with
  | some t => if t < wake then cur else some wake
  | none => some wake

lemma set_wake_at_some (t wake : ℚ) :
    set_wake_at (some t) wake = some (min t wake) := by
  rcases lt_or_ge t wake with h | h
  · simp [set_wake_at, h, min_eq_left h.le]
  · simp [set_wake_at, not_lt.mpr h, min_eq_right h]

lemma set_wake_at_foldl (t : ℚ) (l : List ℚ) :
    List.foldl set_wake_at (some t) l = some (List.foldl min t l) := by
  induction l generalizing t with
  | nil => rfl
  | cons w ws ih => simp [List.foldl, set_wake_at_some, ih]

/-- Claim C10: `Runtime::set_wake_at` never moves a pending refresh deadline
later: a stored deadline strictly earlier than the request is kept, any
other state is overwritten with the request, and after any sequence of
calls starting from an empty slot the stored deadline is the minimum of
all requested wake times. -/
theorem set_wake_at_min (cur : Option ℚ) (wake t : ℚ) (l : List ℚ) :
    (cur = some t → t < wake → set_wake_at cur wake = cur) ∧
    (cur = some t → ¬ t < wake → set_wake_at cur wake = some wake) ∧
    (cur = none → set_wake_at cur wake = some wake) ∧
    List.foldl set_wake_at none (wake :: l) = some (List.foldl min wake l) := by
  refine ⟨?_, ?_, ?_, ?_⟩
  · rintro rfl h
    simp [set_wake_at, h]
  · rintro rfl h
    simp [set_wake_at, h]
  · rintro rfl
    rfl
  · simpa [List.foldl] using set_wake_at_foldl wake l

/-- Witness for C10 at concrete inputs. -/
theorem set_wake_at_min_witness :
    set_wake_at (some 3) 5 = some 3 ∧
    set_wake_at (some 7) 5 = some 5 ∧
    set_wake_at none 5 = some 5 ∧
    List.foldl set_wake_at none [5, 3, 7] = some 3 := by
  have h1 := (set_wake_at_min (some 3) 5 3 []).1 rfl (by norm_num)
  have h2 := (set_wake_at_min (some 7) 5 7 []).2.1 rfl (by norm_num)
  have h3 := (set_wake_at_min none 5 0 []).2.2.1 rfl
  have h4 := (set_wake_at_min none 5 0 [3, 7]).2.2.2
  refine ⟨h1, h2, h3, ?_⟩
  rw [h4]
  norm_num [List.foldl]

/-- The per-bar presentation state relevant to repaint throttling:
`Bar.dirty` and `Bar.throttle` from `bar.rs` (lines 36-38).  The throttle
token is the wayland callback, identified here by its protocol id. -/
structure BarT where
  dirty : Bool
  throttle : Option ℕ
deriving DecidableEq, Repr

/-- Source `State::set_data` marking a bar dirty on a data change
(`state.rs` lines 468-470). -/
def mark_dirty (b : BarT) : BarT := { b with dirty := true }

/-- The throttling head of `Bar::render_with` (`bar.rs` lines 126-129 and
188-206): a paint happens only when the bar is dirty, no frame callback is
outstanding, and the surface can render; a successful paint arms a fresh
frame callback (`fresh`) as the new throttle token and clears the dirty
flag.  Returns the new bar state and whether a paint was initiated. -/
def render_attempt (can_render : Bool) (fresh : ℕ) (b : BarT) : BarT × Bool :=
  if b.dirty ∧ b.throttle = none ∧ can_render = true then
    ({ dirty := false, throttle := some fresh }, true)
  else (b, false)

/-- The body of the frame-callback handler installed by `Bar::render_with`
(`bar.rs` lines 190-201), as it acts on one bar: the throttle token is
cleared when the stored callback is no longer alive or its id matches the
firing callback. -/
def frame_done (id : ℕ) (alive : ℕ → Bool) (b : BarT) : BarT :=
  let done := match b.throttle with
    | some cb => !alive cb || cb = id
    | none => false
  if done then { b with throttle := none } else b

/-- Claim C1: while a frame-completion token is outstanding, no paint is
initiated even if the bar is marked dirty again, and a callback that is
alive with a different identity does not clear the token; once the token
clears (matching id, or the callback no longer alive) while the bar is
still dirty, the next draw pass initiates exactly one paint — the bar
comes out clean with a fresh token, so an immediately following attempt
initiates no further paint. -/
theorem bar_throttle_backpressure (b : BarT) (cb id fresh fresh2 : ℕ)
    (alive : ℕ → Bool) (can : Bool)
    (hth : b.throttle = some cb) (hd : b.dirty = true) :
    (render_attempt can fresh (mark_dirty b)).2 = false ∧
    (render_attempt can fresh (mark_dirty b)).1 = mark_dirty b ∧
    (alive cb = true → cb ≠ id → frame_done id alive b = b) ∧
    (alive cb = false ∨ cb = id →
      (frame_done id alive b).throttle = none ∧
      (frame_done id alive b).dirty = true ∧
      (render_attempt true fresh (frame_done id alive b)).2 = true ∧
      (render_attempt true fresh (frame_done id alive b)).1 =
        ⟨false, some fresh⟩ ∧
      (render_attempt true fresh2
        (render_attempt true fresh (frame_done id alive b)).1).2 = false) := by
  refine ⟨?_, ?_, ?_, ?_⟩
  · simp [render_attempt, mark_dirty, hth]
  · simp [render_attempt, mark_dirty, hth]
  · intro ha hne
    simp [frame_done, hth, ha, hne]
  · intro hclear
    have hdone : (!alive cb || cb = id) = true := by
      rcases hclear with h | h
      · simp [h]
      · simp [h]
    have hfd : frame_done id alive b = { b with throttle := none } := by
      simp [frame_done, hth, hdone]
    refine ⟨by simp [hfd], by simp [hfd, hd], ?_, ?_, ?_⟩
    · simp [hfd, render_attempt, hd]
    · simp [hfd, render_attempt, hd]
    · simp [hfd, render_attempt, hd]

/-- Witness for C1: a dirty bar with outstanding token 3, cleared by the
matching callback id 3. -/
theorem bar_throttle_backpressure_witness :
    (render_attempt true 4 (mark_dirty ⟨true, some 3⟩)).2 = false ∧
    (render_attempt true 4
      (frame_done 3 (fun _ => true) ⟨true, some 3⟩)).2 = true ∧
    (render_attempt true 5
      (render_attempt true 4
        (frame_done 3 (fun _ => true) ⟨true, some 3⟩)).1).2 = false := by
  have h := bar_throttle_backpressure ⟨true, some 3⟩ 3 3 4 5
    (fun _ => true) true rfl rfl
  exact ⟨h.1, (h.2.2.2 (Or.inr rfl)).2.2.1, (h.2.2.2 (Or.inr rfl)).2.2.2.2⟩

end Rwaybar

namespace Rwaybar

lemma from_rgba_of_le (r g b a : ℕ) (hr : r ≤ 65535) (hg : g ≤ 65535)
    (hb : b ≤ 65535) (ha : a ≤ 65535) :
    Color.from_rgba ((r : ℚ) / 65535) ((g : ℚ) / 65535) ((b : ℚ) / 65535)
      ((a : ℚ) / 65535) =
      some ⟨(r : ℚ) / 65535, (g : ℚ) / 65535, (b : ℚ) / 65535,
        (a : ℚ) / 65535⟩ := by
  have bound : ∀ n : ℕ, n ≤ 65535 → 0 ≤ (n : ℚ) / 65535 ∧ (n : ℚ) / 65535 ≤ 1 := by
    intro n hn
    constructor
    · positivity
    · rw [div_le_one (by norm_num)]
      exact_mod_cast hn
  unfold Color.from_rgba
  rw [if_pos]
  exact ⟨(bound r hr).1, (bound r hr).2, (bound g hg).1, (bound g hg).2,
    (bound b hb).1, (bound b hb).2, (bound a ha).1, (bound a ha).2⟩

lemma alpha_channel_le (al : Option ℚ) : alpha_channel al ≤ 65535 := by
  unfold alpha_channel
  have h1 : max 0 (min 65535 (al.getD 1 * 65535)) ≤ (65535 : ℚ) := by
    apply max_le (by norm_num) (min_le_left _ _)
  have h2 : (⌊max 0 (min 65535 (al.getD 1 * 65535))⌋ : ℤ) ≤ 65535 := by
    have := Int.floor_le_floor h1
    simpa using this
  exact Int.toNat_le.mpr h2

lemma nibble_le (n : ℕ) : (n &&& 0xF) * 0x1111 ≤ 65535 := by
  have h : n &&& 0xF ≤ 0xF := Nat.and_le_right
  calc (n &&& 0xF) * 0x1111 ≤ 0xF * 0x1111 := Nat.mul_le_mul_right _ h
    _ = 65535 := by norm_num

lemma byte_le (n : ℕ) : (n &&& 0xFF) * 0x101 ≤ 65535 := by
  have h : n &&& 0xFF ≤ 0xFF := Nat.and_le_right
  calc (n &&& 0xFF) * 0x101 ≤ 0xFF * 0x101 := Nat.mul_le_mul_right _ h
    _ = 65535 := by norm_num

lemma word_le (n : ℕ) : n &&& 0xFFFF ≤ 65535 := Nat.and_le_right
lemma parse_rgba_hash (s : String) (al : Option ℚ)
    (h : starts_with_hash s = true) :
    parse_rgba (some s) al =
      Color.from_rgba
        (((hex_channels (from_str_radix16 (s.toList.drop 1)) s.toList.length
          (alpha_channel al)).1 : ℚ) / 65535)
        (((hex_channels (from_str_radix16 (s.toList.drop 1)) s.toList.length
          (alpha_channel al)).2.1 : ℚ) / 65535)
        (((hex_channels (from_str_radix16 (s.toList.drop 1)) s.toList.length
          (alpha_channel al)).2.2.1 : ℚ) / 65535)
        (((hex_channels (from_str_radix16 (s.toList.drop 1)) s.toList.length
          (alpha_channel al)).2.2.2 : ℚ) / 65535) := by
  simp [parse_rgba, h]

lemma parse_rgba_named (s : String) (al : Option ℚ)
    (h : starts_with_hash s = false) (r g b : ℕ)
    (hn : named_color s = (r, g, b)) :
    parse_rgba (some s) al =
      Color.from_rgba ((r : ℚ) / 65535) ((g : ℚ) / 65535) ((b : ℚ) / 65535)
        ((alpha_channel al : ℚ) / 65535) := by
  simp [parse_rgba, h, hn]

lemma named_color_unknown (s : String)
    (h : s ∉ ["black", "red", "yellow", "green", "blue", "gray", "white"]) :
    named_color s = (0, 0, 0) := by
  unfold named_color
  split <;> simp_all

lemma from_rgba_black (a : ℕ) (ha : a ≤ 65535) :
    Color.from_rgba (((0 : ℕ) : ℚ) / 65535) (((0 : ℕ) : ℚ) / 65535)
      (((0 : ℕ) : ℚ) / 65535) ((a : ℚ) / 65535) =
      some ⟨0, 0, 0, (a : ℚ) / 65535⟩ := by
  have h := from_rgba_of_le 0 0 0 a (by norm_num) (by norm_num) (by norm_num) ha
  rw [h]
  norm_num

/-- Claim C8: for every supported hex length (4, 5, 7, 9, 13, 17 characters
including the leading `#`) `parse_rgba` produces exactly the documented
16-bit channel values — 4-bit nibbles scaled by `0x1111`, 8-bit bytes by
`0x101`, 16-bit words verbatim — each stored divided by 65535; a hex
string that does not parse (or has an unsupported length) and an unknown
color name both fall back to black while the alpha channel derived from
the `*-alpha` key is kept unchanged. -/
theorem parse_rgba_channel_values (s : String) (al : Option ℚ) (v : ℕ) :
    (from_str_radix16 (s.toList.drop 1) = some v →
      starts_with_hash s = true →
      ((s.toList.length = 4 → parse_rgba (some s) al =
        some ⟨((((v >>> 8) &&& 0xF) * 0x1111 : ℕ) : ℚ) / 65535,
          ((((v >>> 4) &&& 0xF) * 0x1111 : ℕ) : ℚ) / 65535,
          (((v &&& 0xF) * 0x1111 : ℕ) : ℚ) / 65535,
          ((alpha_channel al : ℕ) : ℚ) / 65535⟩) ∧
      (s.toList.length = 5 → parse_rgba (some s) al =
        some ⟨((((v >>> 12) &&& 0xF) * 0x1111 : ℕ) : ℚ) / 65535,
          ((((v >>> 8) &&& 0xF) * 0x1111 : ℕ) : ℚ) / 65535,
          ((((v >>> 4) &&& 0xF) * 0x1111 : ℕ) : ℚ) / 65535,
          (((v &&& 0xF) * 0x1111 : ℕ) : ℚ) / 65535⟩) ∧
      (s.toList.length = 7 → parse_rgba (some s) al =
        some ⟨((((v >>> 16) &&& 0xFF) * 0x101 : ℕ) : ℚ) / 65535,
          ((((v >>> 8) &&& 0xFF) * 0x101 : ℕ) : ℚ) / 65535,
          (((v &&& 0xFF) * 0x101 : ℕ) : ℚ) / 65535,
          ((alpha_channel al : ℕ) : ℚ) / 65535⟩) ∧
      (s.toList.length = 9 → parse_rgba (some s) al =
        some ⟨((((v >>> 24) &&& 0xFF) * 0x101 : ℕ) : ℚ) / 65535,
          ((((v >>> 16) &&& 0xFF) * 0x101 : ℕ) : ℚ) / 65535,
          ((((v >>> 8) &&& 0xFF) * 0x101 : ℕ) : ℚ) / 65535,
          (((v &&& 0xFF) * 0x101 : ℕ) : ℚ) / 65535⟩) ∧
      (s.toList.length = 13 → parse_rgba (some s) al =
        some ⟨(((v >>> 32) &&& 0xFFFF : ℕ) : ℚ) / 65535,
          (((v >>> 16) &&& 0xFFFF : ℕ) : ℚ) / 65535,
          ((v &&& 0xFFFF : ℕ) : ℚ) / 65535,
          ((alpha_channel al : ℕ) : ℚ) / 65535⟩) ∧
      (s.toList.length = 17 → parse_rgba (some s) al =
        some ⟨(((v >>> 48) &&& 0xFFFF : ℕ) : ℚ) / 65535,
          (((v >>> 32) &&& 0xFFFF : ℕ) : ℚ) / 65535,
          (((v >>> 16) &&& 0xFFFF : ℕ) : ℚ) / 65535,
          ((v &&& 0xFFFF : ℕ) : ℚ) / 65535⟩) ∧
      (s.toList.length ≠ 4 → s.toList.length ≠ 5 → s.toList.length ≠ 7 →
        s.toList.length ≠ 9 → s.toList.length ≠ 13 → s.toList.length ≠ 17 →
        parse_rgba (some s) al =
          some ⟨0, 0, 0, ((alpha_channel al : ℕ) : ℚ) / 65535⟩))) ∧
    (starts_with_hash s = true → from_str_radix16 (s.toList.drop 1) = none →
      parse_rgba (some s) al =
        some ⟨0, 0, 0, ((alpha_channel al : ℕ) : ℚ) / 65535⟩) ∧
    (starts_with_hash s = false →
      s ∉ ["black", "red", "yellow", "green", "blue", "gray", "white"] →
      parse_rgba (some s) al =
        some ⟨0, 0, 0, ((alpha_channel al : ℕ) : ℚ) / 65535⟩) := by
  refine ⟨?_, ?_, ?_⟩
  · intro hv hs
    refine ⟨?_, ?_, ?_, ?_, ?_, ?_, ?_⟩
    · intro hlen
      rw [parse_rgba_hash s al hs, hv, hlen]
      exact from_rgba_of_le _ _ _ _ (nibble_le _) (nibble_le _) (nibble_le _)
        (alpha_channel_le al)
    · intro hlen
      rw [parse_rgba_hash s al hs, hv, hlen]
      exact from_rgba_of_le _ _ _ _ (nibble_le _) (nibble_le _) (nibble_le _)
        (nibble_le _)
    · intro hlen
      rw [parse_rgba_hash s al hs, hv, hlen]
      exact from_rgba_of_le _ _ _ _ (byte_le _) (byte_le _) (byte_le _)
        (alpha_channel_le al)
    · intro hlen
      rw [parse_rgba_hash s al hs, hv, hlen]
      exact from_rgba_of_le _ _ _ _ (byte_le _) (byte_le _) (byte_le _)
        (byte_le _)
    · intro hlen
      rw [parse_rgba_hash s al hs, hv, hlen]
      exact from_rgba_of_le _ _ _ _ (word_le _) (word_le _) (word_le _)
        (alpha_channel_le al)
    · intro hlen
      rw [parse_rgba_hash s al hs, hv, hlen]
      exact from_rgba_of_le _ _ _ _ (word_le _) (word_le _) (word_le _)
        (word_le _)
    · intro h4 h5 h7 h9 h13 h17
      rw [parse_rgba_hash s al hs, hv]
      simp only [hex_channels, if_neg h4, if_neg h5, if_neg h7, if_neg h9,
        if_neg h13, if_neg h17]
      exact from_rgba_black (alpha_channel al) (alpha_channel_le al)
  · intro hs hv
    rw [parse_rgba_hash s al hs, hv]
    simp only [hex_channels]
    exact from_rgba_black (alpha_channel al) (alpha_channel_le al)
  · intro hs hmem
    rw [parse_rgba_named s al hs 0 0 0 (named_color_unknown s hmem)]
    exact from_rgba_black (alpha_channel al) (alpha_channel_le al)

lemma alpha_channel_none : alpha_channel none = 65535 := by
  norm_num [alpha_channel]
  decide

lemma alpha_channel_half : alpha_channel (some (1 / 2)) = 32767 := by
  have h : max (0 : ℚ) (min 65535 ((1 / 2 : ℚ) * 65535)) = 65535 / 2 := by
    norm_num
  have h3 : (⌊(65535 : ℚ) / 2⌋ : ℤ) = 32767 := by
    rw [Int.floor_eq_iff]
    norm_num
  show (⌊max 0 (min 65535 ((1 / 2 : ℚ) * 65535))⌋).toNat = 32767
  rw [h, h3]
  decide

/-- Witness for C8: the spec's own example `#0f08` (r = 0, g = 0xFFFF,
b = 0, a = 0x8888), an unparsable hex string, and an unknown color name
with an explicit alpha. -/
theorem parse_rgba_channel_values_witness :
    parse_rgba (some "#0f08") none =
      some ⟨0, 1, 0, (0x8888 : ℚ) / 65535⟩ ∧
    parse_rgba (some "#zz") none = some ⟨0, 0, 0, 1⟩ ∧
    parse_rgba (some "chartreuse") (some (1 / 2)) =
      some ⟨0, 0, 0, (32767 : ℚ) / 65535⟩ := by
  have h5 := (((parse_rgba_channel_values "#0f08" none 0xf08).1
    (by decide) (by decide)).2.1) (by decide)
  have hzz := (parse_rgba_channel_values "#zz" none 0).2.1
    (by decide) (by decide)
  have hname := (parse_rgba_channel_values "chartreuse" (some (1 / 2)) 0).2.2
    (by decide) (by decide)
  have e1 : ((0xf08 >>> 12) &&& 0xF) * 0x1111 = 0 := by decide
  have e2 : ((0xf08 >>> 8) &&& 0xF) * 0x1111 = 65535 := by decide
  have e3 : ((0xf08 >>> 4) &&& 0xF) * 0x1111 = 0 := by decide
  have e4 : (0xf08 &&& 0xF) * 0x1111 = 0x8888 := by decide
  refine ⟨?_, ?_, ?_⟩
  · rw [h5, e1, e2, e3, e4]
    norm_num
  · rw [hzz, alpha_channel_none]
    norm_num
  · rw [hname, alpha_channel_half]
    norm_num

end Rwaybar

namespace Rwaybar

/-- Modelled from the spec (§2, §4.2): an interactive horizontal region —
a half-open span `[lo, hi)` in local pixel coordinates carrying a payload
(popup descriptor / click handler).  The declaring file `event.rs` is not
part of the sources. -/
structure Region (α : Type) where
  lo : ℚ
  hi : ℚ
  payload : α
deriving DecidableEq, Repr

/-- Modelled from the spec (§2, §4.2): an `EventSink` is an ordered
collection of regions. -/
abbrev EventSink (α : Type) : Type := List (Region α)

/-- Modelled from the spec (§4.2): `merge(other)` concatenates the two
region lists, preserving both sets' payloads. -/
def EventSink.merge (s other : EventSink α) : EventSink α := s ++ other

/-- Modelled from the spec (§4.2): `offset_clamp(shift, lo, hi)` translates
every region's span by `shift`, intersects it with `[lo, hi]`, and drops
regions that become empty. -/
def EventSink.offset_clamp (s : EventSink α) (shift lo hi : ℚ) :
    EventSink α :=
  (s.map fun r =>
      ({ lo := max (r.lo + shift) lo, hi := min (r.hi + shift) hi,
         payload := r.payload } : Region α)).filter
    fun r => decide (r.lo < r.hi)

/-- The resolution of `format.min_width` in `Item::render`
(`item.rs` lines 432-436): absent means 0, pixels are used verbatim, a
fraction is taken of the outer clip's width. -/
def resolve_min_width (mw : Option Width) (outer : (ℚ × ℚ) × (ℚ × ℚ)) : ℚ :=
  match mw with
  | none => 0
  | some (Width.Pixels n) => n
  | some (Width.Fraction f) => f * (outer.2.1 - outer.1.1)

/-- The box-model step of `Item::render` (`item.rs` lines 396-423): under
the guard `(shrink, max_width) != (None, None)`, the combined shrink moves
the inner clip's top-left and the start position right/down by the
left/top inset and pulls the clip's bottom-right in by the right/bottom
inset; `max-width` then tightens the right clip edge (pixels also clear
the flex flag when they actually clip).  Returns the inner clip, start
position and flex flag. -/
def apply_formatting_clip (fmt : Formatting) (outer : (ℚ × ℚ) × (ℚ × ℚ))
    (pos : ℚ × ℚ) (flex : Bool) :
    ((ℚ × ℚ) × (ℚ × ℚ)) × (ℚ × ℚ) × Bool :=
  if (fmt.get_shrink, fmt.max_width) = (none, none) then (outer, pos, flex)
  else
    let p1 :=
      match fmt.get_shrink with
      | some (t, r, b, l) =>
        (((outer.1.1 + l, outer.1.2 + t), (outer.2.1 - r, outer.2.2 - b)),
          (pos.1 + l, pos.2 + t))
      | none => (outer, pos)
    let inner1 := p1.1
    let start1 := p1.2
    match fmt.max_width with
    | some (Width.Pixels n) =>
      let clip_at := start1.1 + n
      if inner1.2.1 > clip_at then
        ((inner1.1, (clip_at, inner1.2.2)), start1, false)
      else (inner1, start1, flex)
    | some (Width.Fraction f) =>
      let pw := outer.2.1 - outer.1.1
      ((inner1.1, (min inner1.2.1 (start1.1 + pw * f), inner1.2.2)), start1,
        flex)
    | none => (inner1, start1, flex)

/-- The per-call render context threaded through `Item::render`
(`render.rs` `Render`, fields as used by `item.rs`): canvas, clip
rectangle (`render_extents`), paint cursor (`render_pos`), flex flag and
the horizontal alignment fraction.  The canvas type is abstract. -/
structure Render (κ : Type) where
  canvas : κ
  extents : (ℚ × ℚ) × (ℚ × ℚ)
  pos : ℚ × ℚ
  flex : Bool
  alignH : Option ℚ

/-- The non-trivial-format body of `Item::render` (`item.rs` lines
384-546).  `setup` is `ItemFormat::setup_ctx` (style-context derivation),
`inner` is `render_inner` returning the mutated canvas, the cursor after
the child, and the regions it contributed (merged into the item's own
`events` clone `ev`); `rotate` is the pixel-row rotation used for
min-width alignment and `paint` the background/border fill, both abstract
canvas operations.  The boring fast path (lines 385-390) recurses and
copies the cursor back without touching the event regions; the full path
applies the box model, min-width alignment, event offset-clamping and
background/border painting. -/
def render_formatted (fmt : Formatting) (setup : Render κ → Render κ)
    (inner : Render κ → κ × (ℚ × ℚ) × EventSink α)
    (rotate : κ → ℚ → ℚ → ℚ → κ) (paint : κ → (ℚ × ℚ) → (ℚ × ℚ) → κ)
    (ev : EventSink α) (parent : Render κ) : Render κ × EventSink α :=
  let ctx := setup parent
  if fmt.is_boring then
    let r := inner ctx
    ({ parent with canvas := r.1, pos := r.2.1 }, EventSink.merge ev r.2.2)
  else
    let outer_clip := ctx.extents
    let clipR := apply_formatting_clip fmt outer_clip ctx.pos ctx.flex
    let inner_clip := clipR.1
    let start_pos := clipR.2.1
    let flex1 := clipR.2.2
    let r := inner { ctx with
      pos := start_pos, extents := inner_clip, flex := flex1 }
    let k2 := r.1
    let end_pos := r.2.1
    let rv1 := EventSink.merge ev r.2.2
    let child_render_width := end_pos.1 - start_pos.1
    let m0 := resolve_min_width fmt.min_width outer_clip
    let min_width :=
      if m0 > inner_clip.2.1 - start_pos.1 then inner_clip.2.1 - start_pos.1
      else m0
    let o :=
      if child_render_width < min_width then
        match ctx.alignH with
        | some f => ((min_width - child_render_width) * f,
            rotate k2 start_pos.1 min_width (min_width - child_render_width))
        | none => ((0 : ℚ), k2)
      else ((0 : ℚ), k2)
    let inner_x_offset := o.1
    let k3 := o.2
    let end_x := if flex1 then end_pos.1 else min end_pos.1 inner_clip.2.1
    let shrink_r := ((fmt.get_shrink).map fun s => s.2.1).getD 0
    let shrink_b := ((fmt.get_shrink).map fun s => s.2.2.1).getD 0
    let outer_pos := (end_x + shrink_r, end_pos.2 + shrink_b)
    let rv2 := EventSink.offset_clamp rv1 inner_x_offset start_pos.1 end_x
    let k4 :=
      if fmt.bg_rgba.isSome || fmt.border.isSome then
        paint k3 start_pos (end_x, end_pos.2)
      else k3
    ({ parent with canvas := k4, pos := outer_pos }, rv2)

/-- Modelled from the spec (§4.1 step 2/3, §8): "skipping the Formatting
step entirely" — derive the style context, recurse directly, and hand the
child's canvas, cursor and event regions back unchanged. -/
def skip_formatting (setup : Render κ → Render κ)
    (inner : Render κ → κ × (ℚ × ℚ) × EventSink α)
    (ev : EventSink α) (parent : Render κ) : Render κ × EventSink α :=
  let r := inner (setup parent)
  ({ parent with canvas := r.1, pos := r.2.1 }, EventSink.merge ev r.2.2)

/-- The center-placement decision of the three-region (sub-bar)
composition, `Module::Bar` arm of `Item::render_inner` (`item.rs` lines
713-730): `none` models the early `return` (the composition step draws no
center content and sets no cursor, without failing the enclosing frame).
`width` is `clip.1.x - render_pos.x`, `left_size`/`right_width`/`cent_size`
the ceiled rendered widths, `clip1x` the right clip edge. -/
def bar_center_offset (width left_size right_width cent_size clip1x : ℚ) :
    Option ℚ :=
  let max_side := (width - cent_size) / 2
  let total_room := width - (left_size + right_width + cent_size)
  if total_room < 0 then none
  else if left_size > max_side then some left_size
  else if right_width > max_side then some (clip1x - right_width - cent_size)
  else some max_side

/-- The cursor arithmetic of the `Module::FocusList` arm of
`Item::render_inner` (`item.rs` lines 635-658): each enumerated entry
advances the cursor by its rendered width plus `spacing`; after the loop
`xpos = render_pos.x - spacing` and the cursor becomes
`render_pos.x.min(xpos)`. -/
def focus_list_cursor (spacing : ℚ) (widths : List ℚ) (origin_x : ℚ) : ℚ :=
  let x := List.foldl (fun x w => x + w + spacing) origin_x widths
  let xpos := x - spacing
  min x xpos

/-- Source `Item::render_clamped_item` (`item.rs` lines 556-567) restricted to its
effect on the process-wide "current iteration item" slot: `replace` the
slot with the iteration item, run the child render (which may itself move
the slot), then `set` the saved previous value back.  `child` returns the
slot it leaves behind and an abstract render result. -/
def render_clamped_item_slot (child : Option ℕ → Option ℕ × β) (it : ℕ)
    (slot : Option ℕ) : Option ℕ × β :=
  let prev := slot
  let r := child (some it)
  (prev, r.2)

/-- The `Module::FocusList` arm (`item.rs` lines 637-657) restricted to its
effect on the "current iteration item" slot: `replace` with `None`, set
the slot to each enumerated item before rendering it, and `set` the saved
previous value back after the loop. -/
def focus_list_slot (child : ℕ → Option ℕ → Option ℕ × β) (entries : List ℕ)
    (slot : Option ℕ) : Option ℕ × List β :=
  let prev := slot
  let r := entries.foldl
    (fun (acc : Option ℕ × List β) i =>
      let s := child i (some i)
      (s.1, acc.2 ++ [s.2]))
    ((none : Option ℕ), ([] : List β))
  (prev, r.2)

/-- Source `PopupDesc::render` (`item.rs` lines 860-887) restricted to its effect
on the "current iteration item" slot: `set` the popup's iteration value,
render, then `set(None)` — not the prior value. -/
def popup_desc_render_slot (child : Option ℕ → Option ℕ × β)
    (iter : Option ℕ) (slot : Option ℕ) : Option ℕ × β :=
  let r := child iter
  ((none : Option ℕ), r.2)

/-- One bar popup, `BarPopup` in `bar.rs` (lines 22-26): the shown
descriptor (by identity+iteration key, modelled as a natural), an optional
vanish deadline, and the anchor span the popup was created for.  `gen` is
a creation counter distinguishing popup instances (a recreated popup gets
a fresh generation). -/
structure BarPopupS where
  descId : ℕ
  gen : ℕ
  vanish : Option ℚ
  anchor_lo : ℚ
  anchor_len : ℚ
deriving DecidableEq, Repr

/-- The popup-related state of a `Bar` (`bar.rs`), plus the generation
counter for fresh popup instances. -/
structure BarS where
  popup : Option BarPopupS
  next_gen : ℕ
deriving DecidableEq, Repr

/-- The popup-creation tail of `Bar::hover` (`bar.rs` lines 243-256): if
the freshly rendered popup content has positive size, create and show a
new popup anchored to the hit span with no vanish deadline; otherwise
return leaving the state as it is. -/
def hover_create (minx maxx : ℚ) (d : ℕ) (size_pos : Bool) (b : BarS) :
    BarS :=
  if size_pos then
    { popup := some ⟨d, b.next_gen, none, minx, maxx - minx⟩,
      next_gen := b.next_gen + 1 }
  else b

/-- Source `Bar::hover` (`bar.rs` lines 232-257).  `hit` is the result of
`sink.get_hover(x, y)`; `size_pos` abstracts whether the descriptor's
rendered popup content has positive size.  With a shown popup: a pointer
outside the popup's anchor span dismisses it (and falls through to
creation), a hit on the same descriptor returns immediately — without
touching the vanish deadline — and a different descriptor dismisses and
recreates. -/
def hover (x : ℚ) (hit : Option (ℚ × ℚ × ℕ)) (size_pos : Bool) (b : BarS) :
    BarS :=
  match hit with
  | none => b
  | some (minx, maxx, d) =>
    match b.popup with
    | some p =>
      if x < p.anchor_lo ∨ x > p.anchor_lo + p.anchor_len then
        hover_create minx maxx d size_pos { b with popup := none }
      else if p.descId = d then b
      else hover_create minx maxx d size_pos { b with popup := none }
    | none => hover_create minx maxx d size_pos b

/-- Source `Bar::no_hover` (`bar.rs` lines 260-270): on hover exit, arm a vanish
deadline 100ms from now on any shown popup (times in milliseconds). -/
def no_hover (now : ℚ) (b : BarS) : BarS :=
  { b with popup := b.popup.map fun p => { p with vanish := some (now + 100) } }

/-- Source `Bar::hover_popup` (`bar.rs` lines 272-277): pointer motion over the
popup surface itself clears the vanish deadline. -/
def hover_popup (b : BarS) : BarS :=
  { b with popup := b.popup.map fun p => { p with vanish := none } }

/-- The popup-vanish check at the top of the popup half of
`Bar::render_with` (`bar.rs` lines 208-212): a popup whose deadline has
passed is removed. -/
def render_popup_tick (now : ℚ) (b : BarS) : BarS :=
  match b.popup with
  | some p =>
    if (match p.vanish with
        | some v => decide (v < now)
        | none => false) then
      { b with popup := none }
    else b
  | none => b

end Rwaybar

namespace Rwaybar

/-- Claim C3: the ordered center-placement policy of the sub-bar
composition — negative total room aborts the step (renders nothing,
without failing the frame); else a left side wider than the ideal
half-width pushes the center to start immediately right of it; else a
right side wider than the half-width pushes the center to end immediately
left of the right content; else the center sits exactly at
`(width - cent_size) / 2`. -/
theorem bar_center_placement_policy
    (width left_size right_width cent_size clip1x : ℚ) :
    (width - (left_size + right_width + cent_size) < 0 →
      bar_center_offset width left_size right_width cent_size clip1x =
        none) ∧
    (0 ≤ width - (left_size + right_width + cent_size) →
      left_size > (width - cent_size) / 2 →
      bar_center_offset width left_size right_width cent_size clip1x =
        some left_size) ∧
    (0 ≤ width - (left_size + right_width + cent_size) →
      ¬ left_size > (width - cent_size) / 2 →
      right_width > (width - cent_size) / 2 →
      bar_center_offset width left_size right_width cent_size clip1x =
        some (clip1x - right_width - cent_size) ∧
      (clip1x - right_width - cent_size) + cent_size = clip1x - right_width) ∧
    (0 ≤ width - (left_size + right_width + cent_size) →
      ¬ left_size > (width - cent_size) / 2 →
      ¬ right_width > (width - cent_size) / 2 →
      bar_center_offset width left_size right_width cent_size clip1x =
        some ((width - cent_size) / 2)) := by
  refine ⟨?_, ?_, ?_, ?_⟩
  · intro h
    simp [bar_center_offset, h]
  · intro h hl
    simp [bar_center_offset, not_lt.mpr h, hl]
  · intro h hl hr
    refine ⟨?_, by ring⟩
    simp [bar_center_offset, not_lt.mpr h, hl, hr]
  · intro h hl hr
    simp [bar_center_offset, not_lt.mpr h, hl, hr]

/-- Witness for C3: all four placement cases at concrete sizes. -/
theorem bar_center_placement_policy_witness :
    bar_center_offset 10 20 0 0 10 = none ∧
    bar_center_offset 100 60 10 10 100 = some 60 ∧
    bar_center_offset 100 10 60 10 100 = some 30 ∧
    bar_center_offset 100 10 10 10 100 = some 45 := by
  have h1 := (bar_center_placement_policy 10 20 0 0 10).1 (by norm_num)
  have h2 := (bar_center_placement_policy 100 60 10 10 100).2.1
    (by norm_num) (by norm_num)
  have h3 := ((bar_center_placement_policy 100 10 60 10 100).2.2.1
    (by norm_num) (by norm_num) (by norm_num)).1
  have h4 := (bar_center_placement_policy 100 10 10 10 100).2.2.2
    (by norm_num) (by norm_num) (by norm_num)
  refine ⟨h1, h2, ?_, ?_⟩
  · rw [h3]
    norm_num
  · rw [h4]
    norm_num

/-- Modelled from the spec (§4.1 step 4 / claim C6): the cumulative inset
the box model is claimed to produce — the componentwise sum of margin,
border and padding, absent sides counting as zero. -/
def combined_inset (f : Formatting) : ℚ × ℚ × ℚ × ℚ :=
  let c := fun (i : Option (ℚ × ℚ × ℚ × ℚ)) => i.getD (0, 0, 0, 0)
  ((c f.padding).1 + (c f.margin).1 + (c f.border).1,
    (c f.padding).2.1 + (c f.margin).2.1 + (c f.border).2.1,
    (c f.padding).2.2.1 + (c f.margin).2.2.1 + (c f.border).2.2.1,
    (c f.padding).2.2.2 + (c f.margin).2.2.2 + (c f.border).2.2.2)

/-- The shrink `Item::render` actually applies: `get_shrink`'s value when
present, nothing otherwise (the guard at `item.rs` line 397 skips the
whole box-model block). -/
def effective_shrink (f : Formatting) : ℚ × ℚ × ℚ × ℚ :=
  (f.get_shrink).getD (0, 0, 0, 0)

lemma get_shrink_eq_combined (f : Formatting)
    (h : f.padding ≠ none ∨ f.margin ≠ none) :
    f.get_shrink = some (combined_inset f) := by
  obtain ⟨bg, bor, brgba, mnw, mxw, mar, pad⟩ := f
  have hguard : ¬ (pad = none ∧ mar = none) := by
    simp only at h
    tauto
  unfold Formatting.get_shrink combined_inset
  rw [if_neg hguard]
  rcases pad with _ | ⟨pt, pr, pb, pl⟩ <;>
    rcases mar with _ | ⟨mt, mr, mb, ml⟩ <;>
      rcases bor with _ | ⟨bt, br2, bb, bl⟩ <;>
        simp <;> refine ⟨by ring, by ring, by ring, by ring⟩

/-- Counterexample to C6 as stated: a `Formatting` with only `border` set
contributes nothing — `get_shrink` is `None`, the render applies a zero
inset and leaves clip and start position unchanged, while the claimed
additive composition would give the border widths `(1, 2, 3, 4)`. -/
theorem border_only_inset_counterexample :
    effective_shrink { border := some (1, 2, 3, 4) } = (0, 0, 0, 0) ∧
    combined_inset { border := some (1, 2, 3, 4) } = (1, 2, 3, 4) ∧
    ¬ (effective_shrink { border := some (1, 2, 3, 4) } =
      combined_inset { border := some (1, 2, 3, 4) }) ∧
    apply_formatting_clip { border := some (1, 2, 3, 4) } ((0, 0), (100, 20))
      (0, 0) true = (((0, 0), (100, 20)), (0, 0), true) := by
  refine ⟨rfl, ?_, ?_, rfl⟩
  · norm_num [combined_inset]
  · norm_num [effective_shrink, combined_inset, Formatting.get_shrink,
      Prod.ext_iff]

/-- Claim C6 (amended): whenever margin or padding is present, margin,
border and padding contribute independently and additively — `get_shrink`
is exactly the componentwise sum of the three — and the render applies
that sum as a single combined inset, moving the inner clip's top-left
corner and the start position right/down by the left/top inset and the
clip's bottom-right corner in by the right/bottom inset.  (When both
margin and padding are absent the block is skipped entirely, so a border
alone contributes nothing.) -/
theorem box_model_additive_inset (f : Formatting) (t r b l : ℚ)
    (h : f.padding ≠ none ∨ f.margin ≠ none) (hmw : f.max_width = none)
    (hci : combined_inset f = (t, r, b, l))
    (outer : (ℚ × ℚ) × (ℚ × ℚ)) (pos : ℚ × ℚ) (flex : Bool) :
    f.get_shrink = some (t, r, b, l) ∧
    apply_formatting_clip f outer pos flex =
      (((outer.1.1 + l, outer.1.2 + t), (outer.2.1 - r, outer.2.2 - b)),
        (pos.1 + l, pos.2 + t), flex) := by
  have h1 : f.get_shrink = some (t, r, b, l) := by
    rw [get_shrink_eq_combined f h, hci]
  refine ⟨h1, ?_⟩
  unfold apply_formatting_clip
  rw [h1, hmw]
  simp

/-- Witness for C6: margin `(1, 1, 1, 1)`, border `(2, 2, 2, 2)` and
padding `(3, 3, 3, 3)` combine into the single inset `(6, 6, 6, 6)`. -/
theorem box_model_additive_inset_witness :
    Formatting.get_shrink
      { margin := some (1, 1, 1, 1), border := some (2, 2, 2, 2),
        padding := some (3, 3, 3, 3) } = some (6, 6, 6, 6) ∧
    apply_formatting_clip
      { margin := some (1, 1, 1, 1), border := some (2, 2, 2, 2),
        padding := some (3, 3, 3, 3) } ((0, 0), (100, 20)) (0, 0) true =
      (((6, 6), (94, 14)), (6, 6), true) := by
  have h := box_model_additive_inset
    { margin := some (1, 1, 1, 1), border := some (2, 2, 2, 2),
      padding := some (3, 3, 3, 3) } 6 6 6 6
    (Or.inl (by simp)) rfl (by norm_num [combined_inset])
    ((0, 0), (100, 20)) (0, 0) true
  refine ⟨h.1, ?_⟩
  rw [h.2]
  norm_num

lemma foldl_spacing (spacing : ℚ) (ws : List ℚ) (x : ℚ) :
    List.foldl (fun x w => x + w + spacing) x ws =
      x + ws.sum + ws.length * spacing := by
  induction ws generalizing x with
  | nil => simp
  | cons w tl ih =>
    simp only [List.foldl_cons, List.sum_cons, List.length_cons, ih]
    push_cast
    ring

/-- Counterexample to C7 as stated: with spacing 4 and an enumeration of
zero matches, the cursor does not stay at its origin — the unconditional
retraction moves it one spacing unit to the left. -/
theorem focus_list_cursor_counterexample :
    focus_list_cursor 4 [] 0 = -4 ∧ focus_list_cursor 4 [] 0 ≠ 0 := by
  constructor <;> norm_num [focus_list_cursor]

/-- Claim C7 (amended): for nonnegative spacing the final FocusList cursor
is always retracted by exactly one spacing unit — including when zero
entries were rendered, so an empty enumeration leaves the cursor one
spacing unit left of its origin rather than at the origin; with at least
one entry the cursor ends at origin + total width + (n−1)·spacing, i.e.
with no trailing gap. -/
theorem focus_list_cursor_retraction (spacing : ℚ) (ws : List ℚ) (ox : ℚ)
    (h : 0 ≤ spacing) :
    focus_list_cursor spacing ws ox =
      ox + ws.sum + ws.length * spacing - spacing ∧
    (ws = [] → focus_list_cursor spacing ws ox = ox - spacing) ∧
    (ws ≠ [] → focus_list_cursor spacing ws ox =
      ox + ws.sum + ((ws.length : ℚ) - 1) * spacing) := by
  have hf := foldl_spacing spacing ws ox
  have hmain : focus_list_cursor spacing ws ox =
      ox + ws.sum + ws.length * spacing - spacing := by
    unfold focus_list_cursor
    rw [hf, min_eq_right (by linarith)]
  refine ⟨hmain, ?_, ?_⟩
  · rintro rfl
    rw [hmain]
    simp
  · intro hne
    rw [hmain]
    ring
/-- Witness for C7: two entries of widths 10 and 20 with spacing 4 end the
cursor at 34 (no trailing gap); zero entries with spacing 4 end it at −4. -/
theorem focus_list_cursor_retraction_witness :
    focus_list_cursor 4 [10, 20] 0 = 34 ∧ focus_list_cursor 4 [] 0 = -4 := by
  have h1 := (focus_list_cursor_retraction 4 [10, 20] 0 (by norm_num)).2.2
    (by simp)
  have h2 := (focus_list_cursor_retraction 4 [] 0 (by norm_num)).2.1 rfl
  constructor
  · rw [h1]
    norm_num
  · rw [h2]
    norm_num

/-- Counterexample to C9 as stated: `PopupDesc::render` sets the slot to
`None` on exit, not to its prior value — starting from `some 0` (a
re-entrant render), the slot observed afterwards is `none`. -/
theorem popup_render_slot_counterexample :
    (popup_desc_render_slot (fun s => (s, (0 : ℕ))) (some 1) (some 0)).1 =
      none ∧
    (popup_desc_render_slot (fun s => (s, (0 : ℕ))) (some 1) (some 0)).1 ≠
      some 0 := by
  exact ⟨rfl, by decide⟩

/-- Claim C9 (amended): `render_clamped_item` and the FocusList loop
restore the "current iteration item" slot to its prior value on every exit
path, whatever the child renders do to it; `PopupDesc::render` instead
resets the slot to `None` on exit, which coincides with the prior value
only when that prior value was `None` (as at its actual call sites). -/
theorem iteration_slot_restore (child : Option ℕ → Option ℕ × β)
    (childF : ℕ → Option ℕ → Option ℕ × β) (entries : List ℕ) (it : ℕ)
    (iter slot : Option ℕ) :
    (render_clamped_item_slot child it slot).1 = slot ∧
    (focus_list_slot childF entries slot).1 = slot ∧
    (popup_desc_render_slot child iter slot).1 = none := by
  exact ⟨rfl, rfl, rfl⟩

end Rwaybar

namespace Rwaybar

/-- Counterexample to C5 as stated: popup shown for descriptor 0
(anchor `[0, 10]`), hover-exit at t = 0 arms a deadline of 100ms, and
hover-enter on the same descriptor at the same spot does persist the
instance — but the vanish deadline is NOT cleared, so the claimed state
(same popup with `vanish = none`) is not reached and the popup is removed
at the first render pass after the deadline despite the re-entry. -/
theorem popup_rehover_counterexample :
    (hover 5 (some (0, 10, 0)) true
      (no_hover 0 ⟨some ⟨0, 0, none, 0, 10⟩, 1⟩)).popup =
      some ⟨0, 0, some 100, 0, 10⟩ ∧
    (hover 5 (some (0, 10, 0)) true
      (no_hover 0 ⟨some ⟨0, 0, none, 0, 10⟩, 1⟩)).popup ≠
      some ⟨0, 0, none, 0, 10⟩ ∧
    (render_popup_tick 101 (hover 5 (some (0, 10, 0)) true
      (no_hover 0 ⟨some ⟨0, 0, none, 0, 10⟩, 1⟩))).popup = none := by
  have hb1 : no_hover 0 (⟨some ⟨0, 0, none, 0, 10⟩, 1⟩ : BarS) =
      ⟨some ⟨0, 0, some 100, 0, 10⟩, 1⟩ := by
    norm_num [no_hover]
  have hb2 : hover 5 (some (0, 10, 0)) true
      (⟨some ⟨0, 0, some 100, 0, 10⟩, 1⟩ : BarS) =
      ⟨some ⟨0, 0, some 100, 0, 10⟩, 1⟩ := by
    norm_num [hover]
  have hb3 : render_popup_tick 101
      (⟨some ⟨0, 0, some 100, 0, 10⟩, 1⟩ : BarS) = ⟨none, 1⟩ := by
    norm_num [render_popup_tick]
  refine ⟨?_, ?_, ?_⟩
  · rw [hb1, hb2]
  · rw [hb1, hb2]
    simp
  · rw [hb1, hb2, hb3]

/-- Claim C5 (amended): hover-enter on the same descriptor within the
popup's anchor span never tears the popup down or recreates it — the very
same instance persists, untouched — but its vanish deadline is NOT cleared
by that re-entry (only pointer motion over the popup surface itself,
`hover_popup`, clears it); hover-exit arms a deadline 100ms out, and with
no deadline-clearing event the popup is removed at the first render pass
strictly after the deadline, while render passes up to the deadline keep
it. -/
theorem popup_hover_lifecycle (b : BarS) (p : BarPopupS)
    (x minx maxx now t : ℚ) (d : ℕ) (sp : Bool)
    (hb : b.popup = some p) :
    (p.descId = d → ¬ x < p.anchor_lo → ¬ x > p.anchor_lo + p.anchor_len →
      hover x (some (minx, maxx, d)) sp b = b) ∧
    (hover_popup b).popup = some { p with vanish := none } ∧
    (no_hover now b).popup = some { p with vanish := some (now + 100) } ∧
    (now + 100 < t → (render_popup_tick t (no_hover now b)).popup = none) ∧
    (¬ now + 100 < t → render_popup_tick t (no_hover now b) = no_hover now b)
    := by
  refine ⟨?_, ?_, ?_, ?_, ?_⟩
  · intro hd h1 h2
    simp [hover, hb, h1, h2, hd]
  · simp [hover_popup, hb]
  · simp [no_hover, hb]
  · intro h
    simp [render_popup_tick, no_hover, hb, h]
  · intro h
    simp [render_popup_tick, no_hover, hb, h]

/-- Witness for C5: popup for descriptor 7 with anchor `[0, 10]`,
re-entered at x = 5, exited at t = 0, ticked at t = 50 and t = 101. -/
theorem popup_hover_lifecycle_witness :
    hover 5 (some (0, 10, 7)) true ⟨some ⟨7, 0, none, 0, 10⟩, 1⟩ =
      ⟨some ⟨7, 0, none, 0, 10⟩, 1⟩ ∧
    (no_hover 0 ⟨some ⟨7, 0, none, 0, 10⟩, 1⟩).popup =
      some ⟨7, 0, some 100, 0, 10⟩ ∧
    (render_popup_tick 50 (no_hover 0 ⟨some ⟨7, 0, none, 0, 10⟩, 1⟩)).popup =
      some ⟨7, 0, some 100, 0, 10⟩ ∧
    (render_popup_tick 101 (no_hover 0 ⟨some ⟨7, 0, none, 0, 10⟩, 1⟩)).popup
      = none := by
  have h := popup_hover_lifecycle ⟨some ⟨7, 0, none, 0, 10⟩, 1⟩
    ⟨7, 0, none, 0, 10⟩ 5 0 10 0 101 7 true rfl
  have h50 := popup_hover_lifecycle ⟨some ⟨7, 0, none, 0, 10⟩, 1⟩
    ⟨7, 0, none, 0, 10⟩ 5 0 10 0 50 7 true rfl
  refine ⟨h.1 rfl (by norm_num) (by norm_num), ?_, ?_, ?_⟩
  · rw [h.2.2.1]
    norm_num
  · rw [h50.2.2.2.2 (by norm_num), h50.2.2.1]
    norm_num
  · exact h.2.2.2.1 (by norm_num)

/-- Counterexample to C4 as stated: with boring formatting the fast path
returns the child's regions unmodified; the claimed offset-clamp of the
child's regions to the child's slot (`[0, 5]` here) would instead drop the
out-of-slot region entirely. -/
theorem boring_fast_path_no_clamp_counterexample :
    (render_formatted Formatting.deflt (fun c => c)
      (fun _ => ((), ((5 : ℚ), (0 : ℚ)), ([⟨10, 20, ()⟩] : EventSink Unit)))
      (fun k _ _ _ => k) (fun k _ _ => k) []
      ⟨(), ((0, 0), (100, 20)), (0, 0), false, none⟩).2 = [⟨10, 20, ()⟩] ∧
    EventSink.offset_clamp ([⟨10, 20, ()⟩] : EventSink Unit) 0 0 5 = [] ∧
    ([⟨10, 20, ()⟩] : EventSink Unit) ≠ [] := by
  refine ⟨rfl, ?_, by decide⟩
  show List.filter _ _ = []
  norm_num [EventSink.offset_clamp, List.filter]

/-- Claim C4 (amended): for every item whose expanded `Formatting` is
boring (equal to the default), `Item::render` produces canvas output,
final cursor and EventSink byte-identical to skipping the Formatting step
entirely — the style context is still derived and the child recursion
happens in it, but no box model, no alignment shift, no background, and in
particular no event offset-clamp is applied: the child's regions are
returned exactly as reported. -/
theorem boring_formatting_fast_path (fmt : Formatting)
    (setup : Render κ → Render κ)
    (inner : Render κ → κ × (ℚ × ℚ) × EventSink α)
    (rotate : κ → ℚ → ℚ → ℚ → κ) (paint : κ → (ℚ × ℚ) → (ℚ × ℚ) → κ)
    (ev : EventSink α) (parent : Render κ)
    (hb : fmt.is_boring) :
    render_formatted fmt setup inner rotate paint ev parent =
      skip_formatting setup inner ev parent := by
  simp [render_formatted, skip_formatting, hb]

/-- Witness for C4: the default (boring) formatting on a concrete context
and child renderer. -/
theorem boring_formatting_fast_path_witness :
    render_formatted Formatting.deflt (fun c => c)
      (fun _ => ((), ((5 : ℚ), (0 : ℚ)), ([⟨1, 2, ()⟩] : EventSink Unit)))
      (fun k _ _ _ => k) (fun k _ _ => k) []
      ⟨(), ((0, 0), (100, 20)), (0, 0), false, none⟩ =
    skip_formatting (fun c => c)
      (fun _ => ((), ((5 : ℚ), (0 : ℚ)), ([⟨1, 2, ()⟩] : EventSink Unit)))
      [] ⟨(), ((0, 0), (100, 20)), (0, 0), false, none⟩ :=
  boring_formatting_fast_path Formatting.deflt (fun c => c)
    (fun _ => ((), ((5 : ℚ), (0 : ℚ)), ([⟨1, 2, ()⟩] : EventSink Unit)))
    (fun k _ _ _ => k) (fun k _ _ => k) []
    ⟨(), ((0, 0), (100, 20)), (0, 0), false, none⟩ rfl

end Rwaybar

namespace Rwaybar

/-- Claim C2: when the resolved min-width — first clamped so it does not
exceed the available clip room `inner_clip.1.x - start_pos.x` — exceeds
the child's natural rendered width and the horizontal alignment fraction
is 1/2, `Item::render` reports the child's regions shifted right by
exactly `(min_width - child_width) / 2` and clamped to the child's slot
`[start_pos.x, end_pos.x]` (the end first clipped to the inner clip when
not flex). -/
theorem min_width_center_alignment_regions (fmt : Formatting)
    (setup : Render κ → Render κ)
    (inner : Render κ → κ × (ℚ × ℚ) × EventSink α)
    (rotate : κ → ℚ → ℚ → ℚ → κ) (paint : κ → (ℚ × ℚ) → (ℚ × ℚ) → κ)
    (ev : EventSink α) (parent : Render κ)
    (iclip : (ℚ × ℚ) × (ℚ × ℚ)) (spos epos : ℚ × ℚ) (fl : Bool)
    (k2 : κ) (add : EventSink α) (mw : ℚ)
    (hnb : ¬ fmt.is_boring)
    (halign : (setup parent).alignH = some (1 / 2))
    (hclip1 : (apply_formatting_clip fmt (setup parent).extents
      (setup parent).pos (setup parent).flex).1 = iclip)
    (hclip2 : (apply_formatting_clip fmt (setup parent).extents
      (setup parent).pos (setup parent).flex).2.1 = spos)
    (hclip3 : (apply_formatting_clip fmt (setup parent).extents
      (setup parent).pos (setup parent).flex).2.2 = fl)
    (hinner : inner { setup parent with
      pos := spos, extents := iclip, flex := fl } = (k2, epos, add))
    (hmw : min (resolve_min_width fmt.min_width (setup parent).extents)
      (iclip.2.1 - spos.1) = mw)
    (hlt : epos.1 - spos.1 < mw) :
    (render_formatted fmt setup inner rotate paint ev parent).2 =
      EventSink.offset_clamp (EventSink.merge ev add)
        ((mw - (epos.1 - spos.1)) * (1 / 2)) spos.1
        (if fl then epos.1 else min epos.1 iclip.2.1) := by
  have hiflt : (if resolve_min_width fmt.min_width (setup parent).extents >
      iclip.2.1 - spos.1 then iclip.2.1 - spos.1
      else resolve_min_width fmt.min_width (setup parent).extents) = mw := by
    rw [← hmw]
    rcases lt_or_ge (iclip.2.1 - spos.1)
        (resolve_min_width fmt.min_width (setup parent).extents) with hc | hc
    · rw [if_pos hc, min_eq_right hc.le]
    · rw [if_neg (not_lt.mpr hc), min_eq_left hc]
  simp only [render_formatted, if_neg hnb]
  simp only [hclip1, hclip2, hclip3]
  simp only [hinner]
  simp only [halign, hiflt]
  simp [hlt]

/-- Witness for C2: min-width 50 on a child of width 20 starting at 0 with
center alignment — the single region `[2, 30)` is shifted by 15 and
clamped to the slot `[0, 20]`, giving `[17, 20)`. -/
theorem min_width_center_alignment_regions_witness :
    (render_formatted { min_width := some (Width.Pixels 50) } (fun c => c)
      (fun _ => ((), ((20 : ℚ), (10 : ℚ)), ([⟨2, 30, ()⟩] : EventSink Unit)))
      (fun k _ _ _ => k) (fun k _ _ => k) []
      ⟨(), ((0, 0), (100, 20)), (0, 0), false, some (1 / 2)⟩).2 =
      [⟨17, 20, ()⟩] := by
  rw [min_width_center_alignment_regions
    { min_width := some (Width.Pixels 50) } (fun c => c)
    (fun _ => ((), ((20 : ℚ), (10 : ℚ)), ([⟨2, 30, ()⟩] : EventSink Unit)))
    (fun k _ _ _ => k) (fun k _ _ => k) []
    ⟨(), ((0, 0), (100, 20)), (0, 0), false, some (1 / 2)⟩
    ((0, 0), (100, 20)) (0, 0) (20, 10) false () [⟨2, 30, ()⟩] 50
    (by decide) rfl rfl rfl rfl rfl
    (by norm_num [resolve_min_width]) (by norm_num)]
  norm_num [EventSink.offset_clamp, EventSink.merge, List.filter]

end Rwaybar
